import Mathlib

/-!
Verification of the simulation core of the Wuhhuu-Touch repository
(src/main.js, first file variant, the one the HTML page loads).

The JavaScript core is shallowly embedded:
* machine floats are idealised as real numbers (`ℝ`); the purely
  rational parts of the code (the gesture edge detector and the heart
  rejection sampler, which use only field arithmetic and comparisons)
  are embedded over `ℚ` with `Bool`/decidable tests so they can be
  evaluated on concrete inputs;
* `Math.random()` draws are modelled as explicit streams of values in
  `[0, 1)`, one entry per draw site;
* the one fallible arithmetic step of the code — `dx / dist` in
  `updateParticles`, which in JavaScript produces `NaN` when
  `dist = 0` — is modelled by an `Option` result: `none` encodes the
  non-finite outcome.
-/

namespace Wuhhuu

/-- A 3-component vector of reals, mirroring the per-particle
`(x, y, z)` triples stored in the flat JS `Float32Array` buffers. -/
structure Vec3 where
  x : ℝ
  y : ℝ
  z : ℝ


/-- The `settings.count` default (src/main.js line 18): number of
particles, 30000. -/
def countDefault : ℕ := 30000

/-! ### Influence controller (gesture edge detection)

src/main.js lines 350–354 inside `detectHands`:

    isHandClosed = (d/4 < 0.22);
    if (wasHandClosed && !isHandClosed) triggerSplash();
    wasHandClosed = isHandClosed;

One controller step consumes the freshly computed `isHandClosed`
observation and the stored `wasHandClosed` flag; it returns the
"fire the impulse" flag together with the new stored flag. -/

/-- One step of the gesture edge detector: given the previous
`wasHandClosed` flag and the current observation `obs = isHandClosed`,
return (impulse fired this tick, new `wasHandClosed`). -/
def handEdgeStep (was obs : Bool) : Bool × Bool :=
  (was && !obs, obs)

/-- Run the edge detector over a list of per-tick gesture observations,
returning the list of per-tick impulse flags. -/
def edgeTrace (was : Bool) : List Bool → List Bool
  | [] => []
  | obs :: rest => (handEdgeStep was obs).1 :: edgeTrace (handEdgeStep was obs).2 rest

/-! ### Heart shape rejection sampler

src/main.js lines 110–121 inside `calculateShapes`:

    let h = 0;
    while (h < settings.count) {
        const x = (Math.random() - 0.5) * 3.5;
        const y = (Math.random() - 0.5) * 3.5;
        const z = (Math.random() - 0.5) * 3.5;
        if ((x*x + (9/4)*y*y + z*z - 1)**3 - x*x*z**3 - (9/80)*y*y*z**3 < 0) {
            s_heart.push(x * 70, y * 70, z * 70);
            h++;
        }
    }

The three `Math.random()` draws of one loop iteration are one entry of
a stream `σ : ℕ → ℚ × ℚ × ℚ`; all arithmetic here is rational. -/

/-- The heart acceptance predicate of src/main.js line 117, on the
candidate point in the unscaled local frame. -/
def heartAccept (x y z : ℚ) : Bool :=
  decide ((x ^ 2 + (9 / 4) * y ^ 2 + z ^ 2 - 1) ^ 3
            - x ^ 2 * z ^ 3 - (9 / 80) * y ^ 2 * z ^ 3 < 0)

/-- The candidate-point transform of src/main.js lines 113–115: each
raw uniform draw `u ∈ [0,1)` becomes the coordinate `(u − 0.5) · 3.5`. -/
def heartCand (u : ℚ × ℚ × ℚ) : ℚ × ℚ × ℚ :=
  ((u.1 - 1 / 2) * (7 / 2), (u.2.1 - 1 / 2) * (7 / 2), (u.2.2 - 1 / 2) * (7 / 2))

/-- The accepted candidate points among the first `m` iterations of the
heart rejection loop fed by the draw stream `σ`. -/
def heartAccepted (σ : ℕ → ℚ × ℚ × ℚ) : ℕ → List (ℚ × ℚ × ℚ)
  | 0 => []
  | m + 1 =>
      heartAccepted σ m ++
        (if heartAccept (heartCand (σ m)).1 (heartCand (σ m)).2.1 (heartCand (σ m)).2.2
         then [heartCand (σ m)] else [])

/-- Number of points the heart loop has accepted after `m` iterations. -/
def hCount (σ : ℕ → ℚ × ℚ × ℚ) (m : ℕ) : ℕ :=
  (heartAccepted σ m).length

/-- The heart `while (h < settings.count)` loop terminates on draw
stream `σ` for particle count `N` iff some finite number of iterations
yields `N` accepted points. -/
def heartTerminates (σ : ℕ → ℚ × ℚ × ℚ) (N : ℕ) : Prop :=
  ∃ m, N ≤ hCount σ m

/-- A draw stream on which every heart candidate is rejected: every
iteration draws the three uniforms `0.99`, giving the candidate point
`(1.715, 1.715, 1.715)`, which fails the heart inequality. -/
def badHeartStream : ℕ → ℚ × ℚ × ℚ :=
  fun _ => ((99 : ℚ) / 100, (99 : ℚ) / 100, (99 : ℚ) / 100)


noncomputable section RealEmbedding

open Classical

/-- The `settings.radius` tunable (src/main.js line 22): hand
interaction radius, default 140. -/
def radius : ℝ := 140

/-- The default of the `settings.speed` tunable (src/main.js line 20):
the spring constant toward the target shape, default 0.08. -/
def speedDefault : ℝ := 2 / 25

/-- The default of the `settings.force` tunable (src/main.js line 21):
splash strength, default 8.0. -/
def forceDefault : ℝ := 8

/-- The friction factor hard-coded in `updateParticles`
(src/main.js line 256: `vx *= 0.91`). -/
def friction : ℝ := 91 / 100

/-- The base colour written by `updateParticles`
(src/main.js line 262: `let r = 0.1, g = 0.2, b = 0.8`). -/
def baseColor : Vec3 := ⟨1 / 10, 1 / 5, 4 / 5⟩

/-- The colour derivation of `updateParticles` (src/main.js lines
259–270): speed is the norm of the updated velocity; above the 2.5
threshold the base colour is blended toward white/gold with intensity
`min ((speed − 2.5) · 0.15) 1`. -/
def colorOf (v : Vec3) : Vec3 :=
  let speed := Real.sqrt (v.x * v.x + v.y * v.y + v.z * v.z)
  if speed > 5 / 2 then
    let intensity := min ((speed - 5 / 2) * (3 / 20)) 1
    ⟨1 / 10 + intensity * (9 / 10), 1 / 5 + intensity * (7 / 10),
      4 / 5 + intensity * (1 / 5)⟩
  else baseColor

/-- Friction, integration and colour derivation — steps 3 and 4 of the
per-particle body of `updateParticles` (src/main.js lines 255–274),
applied to the velocity accumulated by the force steps. -/
def frictionIntegrate (pos : Vec3) (vx vy vz : ℝ) : Vec3 × Vec3 × Vec3 :=
  let vx2 := vx * friction
  let vy2 := vy * friction
  let vz2 := vz * friction
  let v2 : Vec3 := ⟨vx2, vy2, vz2⟩
  (⟨pos.x + vx2, pos.y + vy2, pos.z + vz2⟩, v2, colorOf v2)

/-- Per-particle body of the `updateParticles` loop (src/main.js lines
218–274): spring toward `target + targetCenter` with constant `k`
(`settings.speed`), hand proximity force gated on
`distSq < radius²`, friction `0.91`, symplectic integration, and colour
from the updated speed.  Returns `none` exactly when the JavaScript
arithmetic is non-finite: at `dist = 0` inside the interaction radius
the code computes `dx / dist = 0 / 0 = NaN`, which poisons the
particle's velocity and position. -/
def updateParticle (k : ℝ) (hand : Vec3) (closed : Bool) (center : Vec3)
    (target pos vel : Vec3) : Option (Vec3 × Vec3 × Vec3) :=
  let tx := target.x + center.x
  let ty := target.y + center.y
  let tz := target.z + center.z
  let vx1 := vel.x + (tx - pos.x) * k
  let vy1 := vel.y + (ty - pos.y) * k
  let vz1 := vel.z + (tz - pos.z) * k
  let dx := pos.x - hand.x
  let dy := pos.y - hand.y
  let dz := pos.z - hand.z
  let distSq := dx * dx + dy * dy + dz * dz
  if distSq < radius * radius then
    let dist := Real.sqrt distSq
    if dist = 0 then none
    else
      let force := 1 - dist / radius
      if closed then
        some (frictionIntegrate pos (vx1 - dx / dist * force * 5)
          (vy1 - dy / dist * force * 5) (vz1 - dz / dist * force * 5))
      else
        some (frictionIntegrate pos (vx1 + dx / dist * force * 2)
          (vy1 + dy / dist * force * 2) (vz1 + dz / dist * force * 2))
  else some (frictionIntegrate pos vx1 vy1 vz1)

/-- One axis of the tick when the hand force is out of range: spring,
friction, integration (the code is componentwise on x, y, z). Returns
(new position, new velocity) for that axis. -/
def axisStep (k t p v : ℝ) : ℝ × ℝ :=
  let v1 := (v + (t - p) * k) * friction
  (p + v1, v1)

/-- The per-particle tick restricted to spring + friction +
integration, i.e. the path `updateParticles` takes when the hand is out
of the interaction radius. State is (position, velocity). -/
def tickNoHand (k : ℝ) (center target : Vec3) (s : Vec3 × Vec3) : Vec3 × Vec3 :=
  let sx := axisStep k (target.x + center.x) s.1.x s.2.x
  let sy := axisStep k (target.y + center.y) s.1.y s.2.y
  let sz := axisStep k (target.z + center.z) s.1.z s.2.z
  (⟨sx.1, sy.1, sz.1⟩, ⟨sx.2, sy.2, sz.2⟩)

/-- Iterate `n` ticks of the no-hand-in-range update. -/
def iterNoHand (k : ℝ) (center target : Vec3) : ℕ → Vec3 × Vec3 → Vec3 × Vec3
  | 0, s => s
  | n + 1, s => iterNoHand k center target n (tickNoHand k center target s)

/-! ### Impulse injector -/

/-- The four parallel per-scalar buffers of the particle state store
(src/main.js lines 178–181): flat arrays, index `3i, 3i+1, 3i+2` for
particle `i`. -/
structure Buffers where
  pos : ℕ → ℝ
  target : ℕ → ℝ
  vel : ℕ → ℝ
  col : ℕ → ℝ

/-- The impulse injector `triggerSplash` (src/main.js lines 281–289):
for every scalar slot of the velocity buffer, add
`(Math.random() − 0.5) · settings.force · 6`; the draw stream `σ`
supplies one uniform per scalar slot.  No other buffer is touched. -/
def triggerSplash (force : ℝ) (σ : ℕ → ℝ) (b : Buffers) : Buffers :=
  { b with vel := fun i => b.vel i + (σ i - 1 / 2) * force * 6 }

/-! ### Influence controller position handling -/

/-- Componentwise `THREE.Vector3.lerp`: `a + (b − a) · t`. -/
def lerpVec (a b : Vec3) (t : ℝ) : Vec3 :=
  ⟨a.x + (b.x - a.x) * t, a.y + (b.y - a.y) * t, a.z + (b.z - a.z) * t⟩

/-- Smoothing factor used when a hand observation is present
(src/main.js line 341: `targetCenter.lerp(..., 0.15)`). -/
def trackAlpha : ℝ := 3 / 20

/-- Smoothing factor used when no hand observation is present
(src/main.js line 361: `targetCenter.lerp(new THREE.Vector3(0,0,0), 0.05)`). -/
def relaxAlpha : ℝ := 1 / 20

/-- The no-signal sentinel for the raw hand position
(src/main.js line 362: `handPos.set(1000,1000,1000)`). -/
def sentinel : Vec3 := ⟨1000, 1000, 1000⟩

/-- The no-observation branch of `detectHands` (src/main.js lines
359–364): relax `targetCenter` toward the origin with factor 0.05 and
park `handPos` at the sentinel.  Returns (new targetCenter, new handPos). -/
def noHandStep (center : Vec3) : Vec3 × Vec3 :=
  (lerpVec center ⟨0, 0, 0⟩ relaxAlpha, sentinel)

/-! ### Shape sampler geometry -/

/-- One sphere sample of `calculateShapes` (src/main.js lines 101–107)
from its three uniform draws: radius `100 · ∛u₁`, angles from `u₂`,
`u₃`, converted spherical → Cartesian. -/
def spherePoint (u1 u2 u3 : ℝ) : Vec3 :=
  let r := 100 * u1 ^ ((1 : ℝ) / 3)
  let theta := u2 * (Real.pi * 2)
  let phi := Real.arccos (2 * u3 - 1)
  ⟨r * Real.sin phi * Real.cos theta, r * Real.sin phi * Real.sin theta,
    r * Real.cos phi⟩

/-- One cube sample of `calculateShapes` (src/main.js lines 161–165):
each coordinate `(u − 0.5) · 160`. -/
def cubePoint (u1 u2 u3 : ℝ) : Vec3 :=
  ⟨(u1 - 1 / 2) * 160, (u2 - 1 / 2) * 160, (u3 - 1 / 2) * 160⟩

/-- The star outer (tip) radius (src/main.js line 126). -/
def starOuter : ℝ := 130

/-- The star inner (valley) radius (src/main.js line 127). -/
def starInner : ℝ := 55

/-- The star slab thickness (src/main.js line 128). -/
def starDepth : ℝ := 25

/-- The angular width of one of the five star sectors
(src/main.js line 138: `sectorAngle = (Math.PI * 2) / 5`). -/
def starSector : ℝ := Real.pi * 2 / 5

/-- The JavaScript `%` operator on nonnegative reals:
`a % s = a − s · ⌊a / s⌋`. -/
def jsMod (a s : ℝ) : ℝ := a - s * ⌊a / s⌋

/-- The fold angle of a star candidate (src/main.js lines 139–140):
distance of `angle % sector` from the sector midpoint; `0` at the tip
direction, `sector/2` at the sector boundary. -/
def starFold (angle : ℝ) : ℝ := |jsMod angle starSector - starSector / 2|

/-- The radius limit the code computes at a given fold angle
(src/main.js line 144):
`maxR = R_outer · (1 − fold · 0.8) + R_inner · (fold · 0.8)`. -/
def starMaxR (fold : ℝ) : ℝ :=
  starOuter * (1 - fold * (4 / 5)) + starInner * (fold * (4 / 5))

/-- Modelled from the spec (§4.1, star predicate): the radius limit
"linearly interpolated between the outer tip radius (at the bisector)
and the inner valley radius (at the sector boundary)", i.e. the
interpolation parameter runs from 0 at `fold = 0` to 1 at
`fold = sector/2`.  Stated from the spec's words, for comparison with
the code's `starMaxR`. -/
def starSpecLimit (fold : ℝ) : ℝ :=
  starOuter * (1 - fold / (starSector / 2)) + starInner * (fold / (starSector / 2))

/-- One star sample of `calculateShapes` (src/main.js lines 130–158)
from its three uniform draws: a random angle, a radius
`√u₂ · maxR(fold)` inside the angle's limit, and a slab extrusion in z.
Every iteration of the star loop emits a point (no rejection). -/
def starPoint (u1 u2 u3 : ℝ) : Vec3 :=
  let angle := u1 * (Real.pi * 2)
  let maxR := starMaxR (starFold angle)
  let r := Real.sqrt u2 * maxR
  ⟨r * Real.cos angle, r * Real.sin angle, (u3 - 1 / 2) * starDepth⟩

/-- Flatten one 3-D point into the three consecutive scalar slots the
JS code pushes. -/
def flat3 (p : Vec3) : List ℝ := [p.x, p.y, p.z]

/-- The flat sphere shape buffer built from a stream of per-point draw
triples (src/main.js lines 101–107). -/
def sphereBuf (σ : ℕ → ℝ × ℝ × ℝ) (N : ℕ) : List ℝ :=
  (List.range N).flatMap fun i => flat3 (spherePoint (σ i).1 (σ i).2.1 (σ i).2.2)

/-- The flat cube shape buffer (src/main.js lines 161–165). -/
def cubeBuf (σ : ℕ → ℝ × ℝ × ℝ) (N : ℕ) : List ℝ :=
  (List.range N).flatMap fun i => flat3 (cubePoint (σ i).1 (σ i).2.1 (σ i).2.2)

/-- The flat star shape buffer (src/main.js lines 130–158): exactly `N`
iterations, each emitting one point. -/
def starBuf (σ : ℕ → ℝ × ℝ × ℝ) (N : ℕ) : List ℝ :=
  (List.range N).flatMap fun i => flat3 (starPoint (σ i).1 (σ i).2.1 (σ i).2.2)

/-- The flat heart shape buffer: the first `N` accepted candidates of
the rejection loop after `m` iterations, each scaled by 70 and pushed
as three scalars (src/main.js line 118). -/
def heartBuf (σ : ℕ → ℚ × ℚ × ℚ) (N m : ℕ) : List ℝ :=
  ((heartAccepted σ m).take N).flatMap fun c =>
    [((c.1 * 70 : ℚ) : ℝ), ((c.2.1 * 70 : ℚ) : ℝ), ((c.2.2 * 70 : ℚ) : ℝ)]

/-- The `setShape` bulk copy (src/main.js lines 295–302:
`p_target.set(shapes[name])`): overwrite the front of the target buffer
with the source buffer; `TypedArray.set` faults rather than grow the
target, so a longer source leaves the target unchanged here. -/
def bufferSet (tgt src : List ℝ) : List ℝ :=
  if src.length ≤ tgt.length then src ++ tgt.drop src.length else tgt

/-- The all-zero particle buffers, used to instantiate buffer claims. -/
def bufZero : Buffers := ⟨fun _ => 0, fun _ => 0, fun _ => 0, fun _ => 0⟩

/-! ## Helper lemmas -/

/-- If the updated speed is at most the 2.5 threshold, the colour step
writes the base colour. -/
theorem colorOf_of_speed_le (v : Vec3)
    (h : Real.sqrt (v.x * v.x + v.y * v.y + v.z * v.z) ≤ 5 / 2) :
    colorOf v = baseColor := by
  simp only [colorOf]
  rw [if_neg (not_lt.2 h)]

/-- Norm of a vector supported on the x axis. -/
theorem sqrt_single_axis (a : ℝ) (ha : 0 ≤ a) :
    Real.sqrt (a * a + 0 * 0 + 0 * 0) = a := by
  have h : a * a + 0 * 0 + 0 * 0 = a ^ 2 := by ring
  rw [h, Real.sqrt_sq ha]

/-- When the hand is outside the interaction radius, the per-particle
update takes the no-hand-force path: it is total and equals
`tickNoHand` plus the colour derivation. -/
theorem updateParticle_out_of_range (k : ℝ) (hand : Vec3) (closed : Bool)
    (center target pos vel : Vec3)
    (h : radius * radius ≤
        (pos.x - hand.x) * (pos.x - hand.x) + (pos.y - hand.y) * (pos.y - hand.y)
          + (pos.z - hand.z) * (pos.z - hand.z)) :
    updateParticle k hand closed center target pos vel
      = some ((tickNoHand k center target (pos, vel)).1,
              (tickNoHand k center target (pos, vel)).2,
              colorOf (tickNoHand k center target (pos, vel)).2) := by
  simp only [updateParticle]
  rw [if_neg (not_lt.2 h)]
  rfl

/-- A state sitting exactly at the world-space target with zero
velocity is a fixed point of the no-hand tick. -/
theorem tickNoHand_fixed (k : ℝ) (center target : Vec3) :
    tickNoHand k center target
        (⟨target.x + center.x, target.y + center.y, target.z + center.z⟩, ⟨0, 0, 0⟩)
      = (⟨target.x + center.x, target.y + center.y, target.z + center.z⟩, ⟨0, 0, 0⟩) := by
  simp only [tickNoHand, axisStep]
  norm_num

/-! ## Claims -/

/-- C3: feeding the gesture edge detector the per-tick sequence closed,
closed, open, open, closed from the initial `wasHandClosed = false`
state fires the impulse exactly once, on the closed→open transition at
the third sample; and in general a step fires iff the stored state was
closed and the observation is open — never on an open→closed
transition, and never when the observation repeats the stored state. -/
theorem C3_edge_impulse_once :
    edgeTrace false [true, true, false, false, true]
        = [false, false, true, false, false] ∧
    (edgeTrace false [true, true, false, false, true]).count true = 1 ∧
    (∀ was obs : Bool, (handEdgeStep was obs).1 = true ↔ was = true ∧ obs = false) := by
  refine ⟨by decide, by decide, by decide⟩

/-- C10: `triggerSplash` mutates only the velocity buffer — position,
target and colour buffers are returned unchanged — and each scalar
velocity slot receives the additive increment
`(draw − 0.5) · force · 6`, whose magnitude is at most half of the
scaled impulse magnitude `force · 6`. -/
theorem C10_splash_frame (b : Buffers) (F : ℝ) (σ : ℕ → ℝ) (i : ℕ)
    (h0 : 0 ≤ σ i) (h1 : σ i < 1) (hF : 0 ≤ F) :
    (triggerSplash F σ b).pos = b.pos ∧
    (triggerSplash F σ b).target = b.target ∧
    (triggerSplash F σ b).col = b.col ∧
    (triggerSplash F σ b).vel i = b.vel i + (σ i - 1 / 2) * F * 6 ∧
    |(triggerSplash F σ b).vel i - b.vel i| ≤ F * 6 / 2 := by
  refine ⟨rfl, rfl, rfl, rfl, ?_⟩
  simp only [triggerSplash, add_sub_cancel_left]
  have habs : |σ i - 1 / 2| ≤ 1 / 2 := abs_le.2 ⟨by linarith, by linarith⟩
  calc |(σ i - 1 / 2) * F * 6| = |σ i - 1 / 2| * F * 6 := by
        rw [abs_mul, abs_mul, abs_of_nonneg hF]
        norm_num
    _ ≤ 1 / 2 * F * 6 := by nlinarith
    _ = F * 6 / 2 := by ring

/-- Witness for C10: the concrete all-zero buffer, force 8, the all-zero
draw stream, scalar slot 0. -/
theorem C10_splash_frame_witness :
    (triggerSplash 8 (fun _ => 0) bufZero).pos = bufZero.pos ∧
    (triggerSplash 8 (fun _ => 0) bufZero).target = bufZero.target ∧
    (triggerSplash 8 (fun _ => 0) bufZero).col = bufZero.col ∧
    (triggerSplash 8 (fun _ => 0) bufZero).vel 0
        = bufZero.vel 0 + ((0 : ℝ) - 1 / 2) * 8 * 6 ∧
    |(triggerSplash 8 (fun _ => 0) bufZero).vel 0 - bufZero.vel 0| ≤ 8 * 6 / 2 :=
  C10_splash_frame bufZero 8 (fun _ => 0) 0 le_rfl (by norm_num) (by norm_num)

/-- C2 (code bug): a particle sitting exactly at the raw influence
position is inside the interaction radius with `dist = 0`; the code has
no guard and divides by zero (`0 / 0 = NaN` in JavaScript), so that
particle's update is non-finite instead of being skipped — `none` in
the embedding. -/
theorem C2_zero_distance_not_skipped :
    updateParticle (2 / 25) ⟨0, 0, 0⟩ true ⟨0, 0, 0⟩ ⟨0, 0, 0⟩ ⟨0, 0, 0⟩ ⟨0, 0, 0⟩
      = none := by
  simp only [updateParticle]
  rw [if_pos (by norm_num [radius] :
        ((0 : ℝ) - 0) * (0 - 0) + (0 - 0) * (0 - 0) + (0 - 0) * (0 - 0)
          < radius * radius)]
  have h0 : ((0 : ℝ) - 0) * (0 - 0) + (0 - 0) * (0 - 0) + (0 - 0) * (0 - 0) = 0 := by
    norm_num
  rw [h0, Real.sqrt_zero, if_pos rfl]

/-- Zero velocity yields the base colour. -/
theorem colorOf_zero : colorOf ⟨0, 0, 0⟩ = baseColor := by
  apply colorOf_of_speed_le
  show Real.sqrt ((0 : ℝ) * 0 + 0 * 0 + 0 * 0) ≤ 5 / 2
  rw [sqrt_single_axis 0 le_rfl]
  norm_num

/-- A velocity supported on the x axis below the speed threshold yields
the base colour. -/
theorem colorOf_xaxis_small (a : ℝ) (h0 : 0 ≤ a) (h : a ≤ 5 / 2) :
    colorOf ⟨a, 0, 0⟩ = baseColor := by
  apply colorOf_of_speed_le
  show Real.sqrt (a * a + 0 * 0 + 0 * 0) ≤ 5 / 2
  rw [sqrt_single_axis a h0]
  exact h

/-- C9: on a tick with no influence observation, `detectHands` relaxes
the smoothed position (the shape origin) toward the world origin with
factor 0.05, strictly smaller than the 0.15 used when an observation is
present, and parks the raw influence position at the sentinel
(1000, 1000, 1000); for every particle inside the ±500 simulation
volume the sentinel is outside the interaction radius, so that tick's
update takes the zero-proximity-force path for that particle. -/
theorem C9_no_signal_relax (c p : Vec3)
    (hx : |p.x| ≤ 500) (hy : |p.y| ≤ 500) (hz : |p.z| ≤ 500) :
    (noHandStep c).1.x = (19 / 20) * c.x ∧
    (noHandStep c).1.y = (19 / 20) * c.y ∧
    (noHandStep c).1.z = (19 / 20) * c.z ∧
    relaxAlpha < trackAlpha ∧
    (noHandStep c).2 = sentinel ∧
    ∀ (k : ℝ) (closed : Bool) (center target vel : Vec3),
      updateParticle k (noHandStep c).2 closed center target p vel
        = some ((tickNoHand k center target (p, vel)).1,
                (tickNoHand k center target (p, vel)).2,
                colorOf (tickNoHand k center target (p, vel)).2) := by
  refine ⟨?_, ?_, ?_, by norm_num [relaxAlpha, trackAlpha], rfl, ?_⟩
  · show c.x + (0 - c.x) * relaxAlpha = 19 / 20 * c.x
    rw [relaxAlpha]; ring
  · show c.y + (0 - c.y) * relaxAlpha = 19 / 20 * c.y
    rw [relaxAlpha]; ring
  · show c.z + (0 - c.z) * relaxAlpha = 19 / 20 * c.z
    rw [relaxAlpha]; ring
  · intro k closed center target vel
    apply updateParticle_out_of_range
    have h1 : p.x ≤ 500 := (abs_le.1 hx).2
    have h2 : p.y ≤ 500 := (abs_le.1 hy).2
    have h3 : p.z ≤ 500 := (abs_le.1 hz).2
    show radius * radius ≤
        (p.x - (1000 : ℝ)) * (p.x - 1000) + (p.y - 1000) * (p.y - 1000)
          + (p.z - 1000) * (p.z - 1000)
    rw [radius]
    nlinarith [mul_nonneg (by linarith : (0 : ℝ) ≤ 500 - p.x)
        (by linarith : (0 : ℝ) ≤ 1500 - p.x),
      mul_self_nonneg (p.y - 1000), mul_self_nonneg (p.z - 1000)]

/-- Witness for C9 at the concrete shape origin (1, 2, 3) and a
particle at the origin. -/
theorem C9_no_signal_relax_witness :
    (noHandStep ⟨1, 2, 3⟩).1.x = (19 / 20) * (Vec3.mk 1 2 3).x ∧
    (noHandStep ⟨1, 2, 3⟩).1.y = (19 / 20) * (Vec3.mk 1 2 3).y ∧
    (noHandStep ⟨1, 2, 3⟩).1.z = (19 / 20) * (Vec3.mk 1 2 3).z ∧
    relaxAlpha < trackAlpha ∧
    (noHandStep ⟨1, 2, 3⟩).2 = sentinel ∧
    ∀ (k : ℝ) (closed : Bool) (center target vel : Vec3),
      updateParticle k (noHandStep ⟨1, 2, 3⟩).2 closed center target ⟨0, 0, 0⟩ vel
        = some ((tickNoHand k center target (⟨0, 0, 0⟩, vel)).1,
                (tickNoHand k center target (⟨0, 0, 0⟩, vel)).2,
                colorOf (tickNoHand k center target (⟨0, 0, 0⟩, vel)).2) :=
  C9_no_signal_relax ⟨1, 2, 3⟩ ⟨0, 0, 0⟩ (by norm_num) (by norm_num) (by norm_num)

/-- C7: if a particle's position equals its world-space target
`target + center` and its velocity is zero, and the influence point is
outside the interaction radius, then one `updateParticles` tick leaves
position and velocity unchanged, and so does any number of no-hand
ticks: the equilibrium is a fixed point of the per-tick update. -/
theorem C7_equilibrium_fixed_point (k : ℝ) (hand : Vec3) (closed : Bool)
    (center target : Vec3)
    (hout : radius * radius ≤
        (target.x + center.x - hand.x) * (target.x + center.x - hand.x)
          + (target.y + center.y - hand.y) * (target.y + center.y - hand.y)
          + (target.z + center.z - hand.z) * (target.z + center.z - hand.z)) :
    updateParticle k hand closed center target
        ⟨target.x + center.x, target.y + center.y, target.z + center.z⟩ ⟨0, 0, 0⟩
      = some (⟨target.x + center.x, target.y + center.y, target.z + center.z⟩,
              ⟨0, 0, 0⟩, baseColor) ∧
    ∀ n, iterNoHand k center target n
        (⟨target.x + center.x, target.y + center.y, target.z + center.z⟩, ⟨0, 0, 0⟩)
      = (⟨target.x + center.x, target.y + center.y, target.z + center.z⟩, ⟨0, 0, 0⟩) := by
  constructor
  · rw [updateParticle_out_of_range k hand closed center target _ _ hout,
      tickNoHand_fixed, colorOf_zero]
  · intro n
    induction n with
    | zero => rfl
    | succ n ih =>
        show iterNoHand k center target n _ = _
        rw [tickNoHand_fixed]
        exact ih

/-- Witness for C7: spring constant 0.08, hand at the sentinel, shape
origin and target at the world origin. -/
theorem C7_equilibrium_fixed_point_witness :
    updateParticle (2 / 25) ⟨1000, 1000, 1000⟩ false ⟨0, 0, 0⟩ ⟨0, 0, 0⟩
        ⟨(Vec3.mk 0 0 0).x + (Vec3.mk 0 0 0).x, (Vec3.mk 0 0 0).y + (Vec3.mk 0 0 0).y,
          (Vec3.mk 0 0 0).z + (Vec3.mk 0 0 0).z⟩ ⟨0, 0, 0⟩
      = some (⟨(Vec3.mk 0 0 0).x + (Vec3.mk 0 0 0).x,
               (Vec3.mk 0 0 0).y + (Vec3.mk 0 0 0).y,
               (Vec3.mk 0 0 0).z + (Vec3.mk 0 0 0).z⟩, ⟨0, 0, 0⟩, baseColor) ∧
    ∀ n, iterNoHand (2 / 25) ⟨0, 0, 0⟩ ⟨0, 0, 0⟩ n
        (⟨(Vec3.mk 0 0 0).x + (Vec3.mk 0 0 0).x, (Vec3.mk 0 0 0).y + (Vec3.mk 0 0 0).y,
          (Vec3.mk 0 0 0).z + (Vec3.mk 0 0 0).z⟩, ⟨0, 0, 0⟩)
      = (⟨(Vec3.mk 0 0 0).x + (Vec3.mk 0 0 0).x, (Vec3.mk 0 0 0).y + (Vec3.mk 0 0 0).y,
          (Vec3.mk 0 0 0).z + (Vec3.mk 0 0 0).z⟩, ⟨0, 0, 0⟩) :=
  C7_equilibrium_fixed_point (2 / 25) ⟨1000, 1000, 1000⟩ false ⟨0, 0, 0⟩ ⟨0, 0, 0⟩
    (by norm_num [radius])

/-- Evaluation of one no-hand tick for a state supported on the x axis
with the shape origin at the world origin. -/
theorem tickNoHand_xaxis (k t p v : ℝ) :
    tickNoHand k ⟨0, 0, 0⟩ ⟨t, 0, 0⟩ (⟨p, 0, 0⟩, ⟨v, 0, 0⟩)
      = (⟨p + (v + (t + 0 - p) * k) * friction, 0, 0⟩,
         ⟨(v + (t + 0 - p) * k) * friction, 0, 0⟩) := by
  simp only [tickNoHand, axisStep]
  norm_num

/-- C1 counterexample: in the spec's end-to-end scenario (start at the
origin with zero velocity, then `target[0] = (10,0,0)`, spring constant
0.05, no influence), the code's first tick yields velocity
`(0.455, 0, 0)`, not the claimed `(0.5, 0, 0)`: `updateParticles`
multiplies the spring-incremented velocity by its hard-coded friction
0.91 before integrating. -/
theorem C1_counterexample :
    updateParticle (1 / 20) sentinel false ⟨0, 0, 0⟩ ⟨10, 0, 0⟩ ⟨0, 0, 0⟩ ⟨0, 0, 0⟩
      = some (⟨91 / 200, 0, 0⟩, ⟨91 / 200, 0, 0⟩, baseColor) ∧
    (91 / 200 : ℝ) ≠ 1 / 2 := by
  constructor
  · rw [updateParticle_out_of_range _ _ _ _ _ _ _ (by norm_num [radius, sentinel])]
    have ht : tickNoHand (1 / 20) ⟨0, 0, 0⟩ ⟨10, 0, 0⟩ (⟨0, 0, 0⟩, ⟨0, 0, 0⟩)
        = (⟨91 / 200, 0, 0⟩, ⟨91 / 200, 0, 0⟩) := by
      rw [tickNoHand_xaxis]
      norm_num [friction, Vec3.mk.injEq, Prod.mk.injEq]
    rw [ht, colorOf_xaxis_small (91 / 200) (by norm_num) (by norm_num)]
  · norm_num

/-- C1 amended: with every particle starting at position = target =
origin with zero velocity and no influence in range, one tick leaves
position, velocity (and base colour) unchanged; after setting
`target[0] = (10,0,0)` with spring constant `k = 0.05`, the code's
recurrence is `v' = f·(v + k·(target − position))` with the hard-coded
friction `f = 0.91`, so tick 1 yields velocity = position =
`(0.455, 0, 0)` and tick 2 yields velocity `(0.8483475, 0, 0)` and
position `(1.3033475, 0, 0)`. -/
theorem C1_amended_scenario :
    (updateParticle (1 / 20) sentinel false ⟨0, 0, 0⟩ ⟨0, 0, 0⟩ ⟨0, 0, 0⟩ ⟨0, 0, 0⟩
      = some (⟨0, 0, 0⟩, ⟨0, 0, 0⟩, baseColor)) ∧
    (updateParticle (1 / 20) sentinel false ⟨0, 0, 0⟩ ⟨10, 0, 0⟩ ⟨0, 0, 0⟩ ⟨0, 0, 0⟩
      = some (⟨91 / 200, 0, 0⟩, ⟨91 / 200, 0, 0⟩, baseColor)) ∧
    (updateParticle (1 / 20) sentinel false ⟨0, 0, 0⟩ ⟨10, 0, 0⟩ ⟨91 / 200, 0, 0⟩
        ⟨91 / 200, 0, 0⟩
      = some (⟨521339 / 400000, 0, 0⟩, ⟨339339 / 400000, 0, 0⟩, baseColor)) ∧
    (339339 / 400000 : ℝ) = friction * (91 / 200 + 1 / 20 * (10 - 91 / 200)) := by
  refine ⟨?_, ?_, ?_, by rw [friction]; norm_num⟩
  · rw [updateParticle_out_of_range _ _ _ _ _ _ _ (by norm_num [radius, sentinel])]
    have ht : tickNoHand (1 / 20) ⟨0, 0, 0⟩ ⟨0, 0, 0⟩ (⟨0, 0, 0⟩, ⟨0, 0, 0⟩)
        = (⟨0, 0, 0⟩, ⟨0, 0, 0⟩) := by
      rw [tickNoHand_xaxis]
      norm_num [friction, Vec3.mk.injEq, Prod.mk.injEq]
    rw [ht, colorOf_zero]
  · rw [updateParticle_out_of_range _ _ _ _ _ _ _ (by norm_num [radius, sentinel])]
    have ht : tickNoHand (1 / 20) ⟨0, 0, 0⟩ ⟨10, 0, 0⟩ (⟨0, 0, 0⟩, ⟨0, 0, 0⟩)
        = (⟨91 / 200, 0, 0⟩, ⟨91 / 200, 0, 0⟩) := by
      rw [tickNoHand_xaxis]
      norm_num [friction, Vec3.mk.injEq, Prod.mk.injEq]
    rw [ht, colorOf_xaxis_small (91 / 200) (by norm_num) (by norm_num)]
  · rw [updateParticle_out_of_range _ _ _ _ _ _ _ (by norm_num [radius, sentinel])]
    have ht : tickNoHand (1 / 20) ⟨0, 0, 0⟩ ⟨10, 0, 0⟩ (⟨91 / 200, 0, 0⟩, ⟨91 / 200, 0, 0⟩)
        = (⟨521339 / 400000, 0, 0⟩, ⟨339339 / 400000, 0, 0⟩) := by
      rw [tickNoHand_xaxis]
      norm_num [friction, Vec3.mk.injEq, Prod.mk.injEq]
    rw [ht, colorOf_xaxis_small (339339 / 400000) (by norm_num) (by norm_num)]

/-! ## Heart rejection loop lemmas -/

/-- Every candidate drawn by the all-0.99 stream is rejected. -/
theorem heartAccept_bad (m : ℕ) :
    heartAccept (heartCand (badHeartStream m)).1 (heartCand (badHeartStream m)).2.1
        (heartCand (badHeartStream m)).2.2 = false := by
  simp only [badHeartStream, heartCand, heartAccept]
  rw [decide_eq_false_iff_not]
  norm_num

/-- On the all-0.99 stream the heart loop accepts nothing, ever. -/
theorem heartAccepted_bad (m : ℕ) : heartAccepted badHeartStream m = [] := by
  induction m with
  | zero => rfl
  | succ m ih =>
      simp only [heartAccepted, ih, heartAccept_bad, Bool.false_eq_true, if_false,
        List.nil_append]

/-- One loop iteration grows the accepted list by at most one point. -/
theorem hCount_succ_le (σ : ℕ → ℚ × ℚ × ℚ) (m : ℕ) :
    hCount σ (m + 1) ≤ hCount σ m + 1 := by
  simp only [hCount, heartAccepted, List.length_append]
  cases heartAccept (heartCand (σ m)).1 (heartCand (σ m)).2.1 (heartCand (σ m)).2.2 <;>
    simp

/-- C5 counterexample: the heart rejection loop has no
maximum-attempts bound and no error path.  On the stream that draws
0.99 forever, every candidate is rejected, so after any number of
iterations the loop has accepted zero of the 30000 required points: it
runs forever and never surfaces a configuration-invalid error. -/
theorem C5_counterexample :
    ¬ heartTerminates badHeartStream countDefault ∧
    heartAccept (343 / 200) (343 / 200) (343 / 200) = false := by
  constructor
  · rintro ⟨m, hm⟩
    rw [hCount, heartAccepted_bad] at hm
    simp [countDefault] at hm
  · simp only [heartAccept]
    rw [decide_eq_false_iff_not]
    norm_num

/-- C5 amended: the heart loop is unbounded and errorless; whenever the
draw stream eventually supplies `N` accepted candidates, the loop
terminates at the first iteration count whose accepted total is exactly
`N`, every earlier iteration count having fewer than `N`. -/
theorem C5_amended_loop_exact (σ : ℕ → ℚ × ℚ × ℚ) (N : ℕ)
    (h : heartTerminates σ N) :
    ∃ m, hCount σ m = N ∧ ∀ m' < m, hCount σ m' < N := by
  obtain ⟨m0, hspec, hmin⟩ :
      ∃ m0, N ≤ hCount σ m0 ∧ ∀ m' < m0, hCount σ m' < N := by
    classical
    refine ⟨Nat.find h, Nat.find_spec h, fun m' hm' => ?_⟩
    have hnot := Nat.find_min h hm'
    omega
  refine ⟨m0, ?_, hmin⟩
  cases m0 with
  | zero =>
      have h0 : hCount σ 0 = 0 := rfl
      omega
  | succ m =>
      have h1 : hCount σ m < N := hmin m (Nat.lt_succ_self m)
      have h2 := hCount_succ_le σ m
      omega

/-- A draw stream every candidate of which is accepted: drawing 0.5
three times gives the candidate point (0, 0, 0), strictly inside the
heart. -/
def goodHeartStream : ℕ → ℚ × ℚ × ℚ := fun _ => (1 / 2, 1 / 2, 1 / 2)

/-- Every candidate drawn by the all-0.5 stream is accepted. -/
theorem heartAccept_good (m : ℕ) :
    heartAccept (heartCand (goodHeartStream m)).1 (heartCand (goodHeartStream m)).2.1
        (heartCand (goodHeartStream m)).2.2 = true := by
  simp only [goodHeartStream, heartCand, heartAccept]
  rw [decide_eq_true_eq]
  norm_num

/-- On the all-0.5 stream the heart loop accepts one point per
iteration. -/
theorem hCount_good (m : ℕ) : hCount goodHeartStream m = m := by
  induction m with
  | zero => rfl
  | succ m ih =>
      simp only [hCount, heartAccepted, heartAccept_good, if_true,
        List.length_append, List.length_singleton]
      rw [hCount] at ih
      omega

/-- The all-0.5 stream supplies two accepted candidates. -/
theorem goodHeartStream_terminates_two : heartTerminates goodHeartStream 2 :=
  ⟨2, le_of_eq (hCount_good 2).symm⟩

/-- Witness for C5 amended: the all-0.5 stream with particle count 2. -/
theorem C5_amended_loop_exact_witness :
    ∃ m, hCount goodHeartStream m = 2 ∧ ∀ m' < m, hCount goodHeartStream m' < 2 :=
  C5_amended_loop_exact goodHeartStream 2 goodHeartStream_terminates_two

/-! ## Shape buffer cardinality -/

/-- Length of a flat buffer built by pushing three scalars per element. -/
theorem length_flatMap_three {α β : Type} (l : List α) (f g h : α → β) :
    (l.flatMap fun a => [f a, g a, h a]).length = 3 * l.length := by
  induction l with
  | nil => rfl
  | cons a l ih =>
      simp only [List.flatMap_cons, List.length_append, ih, List.length_cons,
        List.length_nil]
      omega

/-- C8: for every configured particle count `N`, each of the four shape
generators emits exactly `3N` scalars (`N` points) — the heart one as
soon as its draw stream has supplied at least `N` accepted candidates —
so all shape buffers have one common length, and the `setShape` bulk
copy of an equal-length shape buffer into the target buffer replaces
its contents without changing its length. -/
theorem C8_buffer_cardinality (N m : ℕ) (σs σc σt : ℕ → ℝ × ℝ × ℝ)
    (σh : ℕ → ℚ × ℚ × ℚ) (tgt src : List ℝ)
    (hh : N ≤ hCount σh m) (hlen : src.length = tgt.length) :
    (sphereBuf σs N).length = 3 * N ∧
    (cubeBuf σc N).length = 3 * N ∧
    (starBuf σt N).length = 3 * N ∧
    (heartBuf σh N m).length = 3 * N ∧
    bufferSet tgt src = src ∧
    (bufferSet tgt src).length = tgt.length := by
  have hset : bufferSet tgt src = src := by
    rw [bufferSet, if_pos (le_of_eq hlen), hlen, List.drop_length, List.append_nil]
  refine ⟨?_, ?_, ?_, ?_, hset, by rw [hset, hlen]⟩
  · simp only [sphereBuf, flat3]
    rw [length_flatMap_three, List.length_range]
  · simp only [cubeBuf, flat3]
    rw [length_flatMap_three, List.length_range]
  · simp only [starBuf, flat3]
    rw [length_flatMap_three, List.length_range]
  · simp only [heartBuf]
    rw [length_flatMap_three, List.length_take]
    rw [hCount] at hh
    omega

/-- Witness for C8: one particle, the all-0.5 heart stream after one
iteration, a three-scalar target buffer and an equal-length source. -/
theorem C8_buffer_cardinality_witness :
    (sphereBuf (fun _ => (0, 0, 0)) 1).length = 3 * 1 ∧
    (cubeBuf (fun _ => (0, 0, 0)) 1).length = 3 * 1 ∧
    (starBuf (fun _ => (0, 0, 0)) 1).length = 3 * 1 ∧
    (heartBuf goodHeartStream 1 1).length = 3 * 1 ∧
    bufferSet [0, 0, 0] [1, 2, 3] = [1, 2, 3] ∧
    (bufferSet [0, 0, 0] [1, 2, 3]).length = ([0, 0, 0] : List ℝ).length :=
  C8_buffer_cardinality 1 1 (fun _ => (0, 0, 0)) (fun _ => (0, 0, 0))
    (fun _ => (0, 0, 0)) goodHeartStream [0, 0, 0] [1, 2, 3]
    (le_of_eq (hCount_good 1).symm) rfl

/-! ## Relaxation dynamics (claim C4) -/

/-- Iterate the one-axis no-hand step `n` ticks. -/
def axisIter (k t : ℝ) : ℕ → ℝ × ℝ → ℝ × ℝ
  | 0, s => s
  | n + 1, s => axisIter k t n (axisStep k t s.1 s.2)

/-- Unfolding lemma for one more axis tick. -/
theorem axisIter_succ (k t : ℝ) (n : ℕ) (s : ℝ × ℝ) :
    axisIter k t (n + 1) s = axisIter k t n (axisStep k t s.1 s.2) := rfl

/-- The 3-D no-hand iteration is the product of the three axis
iterations. -/
theorem iterNoHand_eq_axisIter (k : ℝ) (center target : Vec3) (n : ℕ)
    (s : Vec3 × Vec3) :
    iterNoHand k center target n s
      = (⟨(axisIter k (target.x + center.x) n (s.1.x, s.2.x)).1,
          (axisIter k (target.y + center.y) n (s.1.y, s.2.y)).1,
          (axisIter k (target.z + center.z) n (s.1.z, s.2.z)).1⟩,
         ⟨(axisIter k (target.x + center.x) n (s.1.x, s.2.x)).2,
          (axisIter k (target.y + center.y) n (s.1.y, s.2.y)).2,
          (axisIter k (target.z + center.z) n (s.1.z, s.2.z)).2⟩) := by
  induction n generalizing s with
  | zero => rfl
  | succ n ih =>
      show iterNoHand k center target n (tickNoHand k center target s) = _
      rw [ih]
      rfl

/-- A quadratic Lyapunov form for the spring + friction axis recurrence
at the code constants `k = 0.08`, `f = 0.91`, as a function of the axis
target, position and velocity. -/
def lyap (t p v : ℝ) : ℝ :=
  4550 * v ^ 2 - 86 * v * (t - p) + 364 * (t - p) ^ 2

/-- One axis tick at the code constants contracts the Lyapunov form by
exactly the friction factor 0.91. -/
theorem lyap_step (t p v : ℝ) :
    lyap t (axisStep (2 / 25) t p v).1 (axisStep (2 / 25) t p v).2
      = friction * lyap t p v := by
  simp only [axisStep, lyap, friction]
  ring

/-- The Lyapunov form dominates 363 times the squared axis distance. -/
theorem lyap_lower (t p v : ℝ) : 363 * (t - p) ^ 2 ≤ lyap t p v := by
  simp only [lyap]
  nlinarith [sq_nonneg (t - p - 43 * v), sq_nonneg v]

/-- After `n` axis ticks the Lyapunov form has contracted by exactly
`0.91 ^ n`. -/
theorem lyap_iter (t p v : ℝ) (n : ℕ) :
    lyap t (axisIter (2 / 25) t n (p, v)).1 (axisIter (2 / 25) t n (p, v)).2
      = friction ^ n * lyap t p v := by
  induction n generalizing p v with
  | zero => simp [axisIter]
  | succ n ih =>
      calc lyap t (axisIter (2 / 25) t (n + 1) (p, v)).1
            (axisIter (2 / 25) t (n + 1) (p, v)).2
          = lyap t (axisIter (2 / 25) t n
                ((axisStep (2 / 25) t p v).1, (axisStep (2 / 25) t p v).2)).1
              (axisIter (2 / 25) t n
                ((axisStep (2 / 25) t p v).1, (axisStep (2 / 25) t p v).2)).2 := rfl
        _ = friction ^ n
              * lyap t (axisStep (2 / 25) t p v).1 (axisStep (2 / 25) t p v).2 :=
            ih (axisStep (2 / 25) t p v).1 (axisStep (2 / 25) t p v).2
        _ = friction ^ n * (friction * lyap t p v) := by rw [lyap_step]
        _ = friction ^ (n + 1) * lyap t p v := by ring

/-- At the code constants the squared axis distance to the target
eventually falls below any positive bound and stays there. -/
theorem axisIter_dist_eventually_lt (t p v ε : ℝ) (hε : 0 < ε) :
    ∃ N, ∀ n, N ≤ n → (t - (axisIter (2 / 25) t n (p, v)).1) ^ 2 < ε ^ 2 := by
  have hL0 : 0 ≤ lyap t p v := le_trans (by positivity) (lyap_lower t p v)
  have hf0 : (0 : ℝ) ≤ friction := by rw [friction]; norm_num
  have hf1 : friction < 1 := by rw [friction]; norm_num
  obtain ⟨N, hN⟩ := exists_pow_lt_of_lt_one
    (show (0 : ℝ) < 363 * ε ^ 2 / (lyap t p v + 1) from
      div_pos (by positivity) (by linarith)) hf1
  refine ⟨N, fun n hn => ?_⟩
  have hmono : friction ^ n ≤ friction ^ N :=
    pow_le_pow_of_le_one hf0 (le_of_lt hf1) hn
  have hlow := lyap_lower t (axisIter (2 / 25) t n (p, v)).1
    (axisIter (2 / 25) t n (p, v)).2
  rw [lyap_iter t p v n] at hlow
  have hchain : friction ^ n * lyap t p v < 363 * ε ^ 2 := by
    calc friction ^ n * lyap t p v
        ≤ friction ^ N * (lyap t p v + 1) :=
          mul_le_mul hmono (by linarith) hL0 (pow_nonneg hf0 N)
      _ < 363 * ε ^ 2 / (lyap t p v + 1) * (lyap t p v + 1) :=
          mul_lt_mul_of_pos_right hN (by linarith)
      _ = 363 * ε ^ 2 := by field_simp
  nlinarith [hlow, hchain]

/-- C4 amended: at the code constants (spring `k = 0.08`, hard-coded
friction `0.91`) a particle evolving under spring + friction ticks
alone (no influence in range, no impulse) has its distance to the
world-space target fall below every positive ε eventually and stay
there — though, per the counterexample, not monotonically on every
tick. -/
theorem C4_amended_convergence (center target : Vec3) (s : Vec3 × Vec3)
    (ε : ℝ) (hε : 0 < ε) :
    ∃ N, ∀ n, N ≤ n →
      Real.sqrt
          ((target.x + center.x - (iterNoHand (2 / 25) center target n s).1.x) ^ 2
            + (target.y + center.y - (iterNoHand (2 / 25) center target n s).1.y) ^ 2
            + (target.z + center.z - (iterNoHand (2 / 25) center target n s).1.z) ^ 2)
        < ε := by
  have hε2 : 0 < ε / 2 := by linarith
  obtain ⟨Nx, hNx⟩ :=
    axisIter_dist_eventually_lt (target.x + center.x) s.1.x s.2.x (ε / 2) hε2
  obtain ⟨Ny, hNy⟩ :=
    axisIter_dist_eventually_lt (target.y + center.y) s.1.y s.2.y (ε / 2) hε2
  obtain ⟨Nz, hNz⟩ :=
    axisIter_dist_eventually_lt (target.z + center.z) s.1.z s.2.z (ε / 2) hε2
  refine ⟨max Nx (max Ny Nz), fun n hn => ?_⟩
  have hx := hNx n (le_trans (le_max_left _ _) hn)
  have hy := hNy n (le_trans (le_trans (le_max_left _ _) (le_max_right _ _)) hn)
  have hz := hNz n (le_trans (le_trans (le_max_right _ _) (le_max_right _ _)) hn)
  rw [iterNoHand_eq_axisIter]
  dsimp only
  rw [Real.sqrt_lt' hε]
  nlinarith [hx, hy, hz, sq_nonneg ε]

/-- Witness for C4 amended: target (5,0,0), shape origin and start
state at the origin, ε = 1. -/
theorem C4_amended_convergence_witness :
    ∃ N, ∀ n, N ≤ n →
      Real.sqrt
          (((Vec3.mk 5 0 0).x + (Vec3.mk 0 0 0).x
              - (iterNoHand (2 / 25) ⟨0, 0, 0⟩ ⟨5, 0, 0⟩ n
                  (⟨0, 0, 0⟩, ⟨0, 0, 0⟩)).1.x) ^ 2
            + ((Vec3.mk 5 0 0).y + (Vec3.mk 0 0 0).y
              - (iterNoHand (2 / 25) ⟨0, 0, 0⟩ ⟨5, 0, 0⟩ n
                  (⟨0, 0, 0⟩, ⟨0, 0, 0⟩)).1.y) ^ 2
            + ((Vec3.mk 5 0 0).z + (Vec3.mk 0 0 0).z
              - (iterNoHand (2 / 25) ⟨0, 0, 0⟩ ⟨5, 0, 0⟩ n
                  (⟨0, 0, 0⟩, ⟨0, 0, 0⟩)).1.z) ^ 2)
        < 1 :=
  C4_amended_convergence ⟨0, 0, 0⟩ ⟨5, 0, 0⟩ (⟨0, 0, 0⟩, ⟨0, 0, 0⟩) 1 one_pos

/-- The axis iteration fixes the origin when the axis target is 0. -/
theorem axisIter_zero (k : ℝ) (n : ℕ) : axisIter k 0 n (0, 0) = (0, 0) := by
  induction n with
  | zero => rfl
  | succ n ih =>
      have hstep : axisStep k 0 0 0 = ((0 : ℝ), (0 : ℝ)) := by
        simp [axisStep]
      show axisIter k 0 n (axisStep k 0 0 0) = (0, 0)
      rw [hstep]
      exact ih

/-- Iterating one more tick equals stepping the `n`-tick state. -/
theorem axisIter_comm (k t : ℝ) (n : ℕ) (s : ℝ × ℝ) :
    axisIter k t (n + 1) s
      = axisStep k t (axisIter k t n s).1 (axisIter k t n s).2 := by
  induction n generalizing s with
  | zero => rfl
  | succ n ih =>
      show axisIter k t (n + 1) (axisStep k t s.1 s.2) = _
      rw [ih]
      rfl

/-- Exact x-axis states after six and seven code ticks starting 1000
away from the target with zero velocity: position ≈ 1025.67 after six
ticks and ≈ 1217.43 after seven. -/
theorem axisIter_bad :
    axisIter (2 / 25) 1000 6 (0, 0)
      = ((125203656452093191063 : ℝ) / 122070312500000000,
         (25973625481294963563 : ℝ) / 122070312500000000) ∧
    axisIter (2 / 25) 1000 7 (0, 0)
      = ((371528870500898058989859 : ℝ) / 305175781250000000000,
         (58519729370665081332359 : ℝ) / 305175781250000000000) := by
  have e1 : axisStep (2 / 25) 1000 0 0 = ((364 : ℝ) / 5, (364 : ℝ) / 5) := by
    norm_num [axisStep, friction, Prod.ext_iff]
  have e2 : axisStep (2 / 25) 1000 ((364 : ℝ) / 5) ((364 : ℝ) / 5)
      = ((645463 : ℝ) / 3125, (417963 : ℝ) / 3125) := by
    norm_num [axisStep, friction, Prod.ext_iff]
  have e3 : axisStep (2 / 25) 1000 ((645463 : ℝ) / 3125) ((417963 : ℝ) / 3125)
      = ((3015799059 : ℝ) / 7812500, (1402141559 : ℝ) / 7812500) := by
    norm_num [axisStep, friction, Prod.ext_iff]
  have e4 : axisStep (2 / 25) 1000 ((3015799059 : ℝ) / 7812500)
        ((1402141559 : ℝ) / 7812500)
      = ((11602369265487 : ℝ) / 19531250000, (4062871617987 : ℝ) / 19531250000) := by
    norm_num [axisStep, friction, Prod.ext_iff]
  have e5 : axisStep (2 / 25) 1000 ((11602369265487 : ℝ) / 19531250000)
        ((4062871617987 : ℝ) / 19531250000)
      = ((39692012388319291 : ℝ) / 48828125000000,
         (10686089224601791 : ℝ) / 48828125000000) := by
    norm_num [axisStep, friction, Prod.ext_iff]
  have e6 : axisStep (2 / 25) 1000 ((39692012388319291 : ℝ) / 48828125000000)
        ((10686089224601791 : ℝ) / 48828125000000)
      = ((125203656452093191063 : ℝ) / 122070312500000000,
         (25973625481294963563 : ℝ) / 122070312500000000) := by
    norm_num [axisStep, friction, Prod.ext_iff]
  have e7 : axisStep (2 / 25) 1000 ((125203656452093191063 : ℝ) / 122070312500000000)
        ((25973625481294963563 : ℝ) / 122070312500000000)
      = ((371528870500898058989859 : ℝ) / 305175781250000000000,
         (58519729370665081332359 : ℝ) / 305175781250000000000) := by
    norm_num [axisStep, friction, Prod.ext_iff]
  have h6 : axisIter (2 / 25) 1000 6 (0, 0)
      = ((125203656452093191063 : ℝ) / 122070312500000000,
         (25973625481294963563 : ℝ) / 122070312500000000) := by
    calc axisIter (2 / 25) 1000 6 ((0 : ℝ), (0 : ℝ))
        = axisIter (2 / 25) 1000 5 (axisStep (2 / 25) 1000 0 0) := rfl
      _ = axisIter (2 / 25) 1000 5 ((364 : ℝ) / 5, (364 : ℝ) / 5) := by rw [e1]
      _ = axisIter (2 / 25) 1000 4
            (axisStep (2 / 25) 1000 ((364 : ℝ) / 5) ((364 : ℝ) / 5)) := rfl
      _ = axisIter (2 / 25) 1000 4 ((645463 : ℝ) / 3125, (417963 : ℝ) / 3125) := by
            rw [e2]
      _ = axisIter (2 / 25) 1000 3
            (axisStep (2 / 25) 1000 ((645463 : ℝ) / 3125) ((417963 : ℝ) / 3125)) := rfl
      _ = axisIter (2 / 25) 1000 3
            ((3015799059 : ℝ) / 7812500, (1402141559 : ℝ) / 7812500) := by rw [e3]
      _ = axisIter (2 / 25) 1000 2
            (axisStep (2 / 25) 1000 ((3015799059 : ℝ) / 7812500)
              ((1402141559 : ℝ) / 7812500)) := rfl
      _ = axisIter (2 / 25) 1000 2
            ((11602369265487 : ℝ) / 19531250000, (4062871617987 : ℝ) / 19531250000) := by
            rw [e4]
      _ = axisIter (2 / 25) 1000 1
            (axisStep (2 / 25) 1000 ((11602369265487 : ℝ) / 19531250000)
              ((4062871617987 : ℝ) / 19531250000)) := rfl
      _ = axisIter (2 / 25) 1000 1
            ((39692012388319291 : ℝ) / 48828125000000,
             (10686089224601791 : ℝ) / 48828125000000) := by rw [e5]
      _ = axisIter (2 / 25) 1000 0
            (axisStep (2 / 25) 1000 ((39692012388319291 : ℝ) / 48828125000000)
              ((10686089224601791 : ℝ) / 48828125000000)) := rfl
      _ = ((125203656452093191063 : ℝ) / 122070312500000000,
           (25973625481294963563 : ℝ) / 122070312500000000) := by rw [e6]; rfl
  refine ⟨h6, ?_⟩
  have h7 := axisIter_comm (2 / 25) 1000 6 ((0 : ℝ), (0 : ℝ))
  norm_num only at h7
  rw [h6, e7] at h7
  exact h7

/-- C4 counterexample: with the code's own constants (spring 0.08 and
the hard-coded friction 0.91) and a single particle displaced 1000 from
its world-space target along the x axis with zero velocity, running
spring + friction ticks alone gives a distance of ≈ 25.67 after six
ticks but ≈ 217.43 after seven: the distance is still far above any
small epsilon, yet strictly increases on the seventh tick — the
discrete spring overshoots and oscillates, so the claimed strict
per-tick decrease fails. -/
theorem C4_counterexample :
    1 < Real.sqrt
        ((1000 - (iterNoHand (2 / 25) ⟨0, 0, 0⟩ ⟨1000, 0, 0⟩ 6
            (⟨0, 0, 0⟩, ⟨0, 0, 0⟩)).1.x) ^ 2
          + (0 - (iterNoHand (2 / 25) ⟨0, 0, 0⟩ ⟨1000, 0, 0⟩ 6
              (⟨0, 0, 0⟩, ⟨0, 0, 0⟩)).1.y) ^ 2
          + (0 - (iterNoHand (2 / 25) ⟨0, 0, 0⟩ ⟨1000, 0, 0⟩ 6
              (⟨0, 0, 0⟩, ⟨0, 0, 0⟩)).1.z) ^ 2) ∧
    Real.sqrt
        ((1000 - (iterNoHand (2 / 25) ⟨0, 0, 0⟩ ⟨1000, 0, 0⟩ 6
            (⟨0, 0, 0⟩, ⟨0, 0, 0⟩)).1.x) ^ 2
          + (0 - (iterNoHand (2 / 25) ⟨0, 0, 0⟩ ⟨1000, 0, 0⟩ 6
              (⟨0, 0, 0⟩, ⟨0, 0, 0⟩)).1.y) ^ 2
          + (0 - (iterNoHand (2 / 25) ⟨0, 0, 0⟩ ⟨1000, 0, 0⟩ 6
              (⟨0, 0, 0⟩, ⟨0, 0, 0⟩)).1.z) ^ 2)
      < Real.sqrt
        ((1000 - (iterNoHand (2 / 25) ⟨0, 0, 0⟩ ⟨1000, 0, 0⟩ 7
            (⟨0, 0, 0⟩, ⟨0, 0, 0⟩)).1.x) ^ 2
          + (0 - (iterNoHand (2 / 25) ⟨0, 0, 0⟩ ⟨1000, 0, 0⟩ 7
              (⟨0, 0, 0⟩, ⟨0, 0, 0⟩)).1.y) ^ 2
          + (0 - (iterNoHand (2 / 25) ⟨0, 0, 0⟩ ⟨1000, 0, 0⟩ 7
              (⟨0, 0, 0⟩, ⟨0, 0, 0⟩)).1.z) ^ 2) := by
  have ht : (1000 : ℝ) + 0 = 1000 := by norm_num
  have h0 : (0 : ℝ) + 0 = 0 := by norm_num
  have hx6 : (iterNoHand (2 / 25) ⟨0, 0, 0⟩ ⟨1000, 0, 0⟩ 6
      (⟨0, 0, 0⟩, ⟨0, 0, 0⟩)).1.x
      = (125203656452093191063 : ℝ) / 122070312500000000 := by
    rw [iterNoHand_eq_axisIter]
    dsimp only
    rw [ht, axisIter_bad.1]
  have hy6 : (iterNoHand (2 / 25) ⟨0, 0, 0⟩ ⟨1000, 0, 0⟩ 6
      (⟨0, 0, 0⟩, ⟨0, 0, 0⟩)).1.y = 0 := by
    rw [iterNoHand_eq_axisIter]
    dsimp only
    rw [h0, axisIter_zero]
  have hz6 : (iterNoHand (2 / 25) ⟨0, 0, 0⟩ ⟨1000, 0, 0⟩ 6
      (⟨0, 0, 0⟩, ⟨0, 0, 0⟩)).1.z = 0 := by
    rw [iterNoHand_eq_axisIter]
    dsimp only
    rw [h0, axisIter_zero]
  have hx7 : (iterNoHand (2 / 25) ⟨0, 0, 0⟩ ⟨1000, 0, 0⟩ 7
      (⟨0, 0, 0⟩, ⟨0, 0, 0⟩)).1.x
      = (371528870500898058989859 : ℝ) / 305175781250000000000 := by
    rw [iterNoHand_eq_axisIter]
    dsimp only
    rw [ht, axisIter_bad.2]
  have hy7 : (iterNoHand (2 / 25) ⟨0, 0, 0⟩ ⟨1000, 0, 0⟩ 7
      (⟨0, 0, 0⟩, ⟨0, 0, 0⟩)).1.y = 0 := by
    rw [iterNoHand_eq_axisIter]
    dsimp only
    rw [h0, axisIter_zero]
  have hz7 : (iterNoHand (2 / 25) ⟨0, 0, 0⟩ ⟨1000, 0, 0⟩ 7
      (⟨0, 0, 0⟩, ⟨0, 0, 0⟩)).1.z = 0 := by
    rw [iterNoHand_eq_axisIter]
    dsimp only
    rw [h0, axisIter_zero]
  rw [hx6, hy6, hz6, hx7, hy7, hz7]
  constructor
  · rw [Real.lt_sqrt (by norm_num)]
    norm_num
  · apply Real.sqrt_lt_sqrt (by positivity)
    norm_num

/-! ## Shape containment (claim C6) -/

/-- Every point the heart loop has accepted passes the acceptance
test. -/
theorem heartAccepted_mem (σ : ℕ → ℚ × ℚ × ℚ) (m : ℕ) (c : ℚ × ℚ × ℚ)
    (hc : c ∈ heartAccepted σ m) :
    heartAccept c.1 c.2.1 c.2.2 = true := by
  induction m with
  | zero => simp [heartAccepted] at hc
  | succ m ih =>
      simp only [heartAccepted, List.mem_append] at hc
      rcases hc with hc | hc
      · exact ih hc
      · by_cases hb : heartAccept (heartCand (σ m)).1 (heartCand (σ m)).2.1
            (heartCand (σ m)).2.2 = true
        · rw [if_pos hb] at hc
          simp only [List.mem_singleton] at hc
          rw [hc]
          exact hb
        · rw [if_neg hb] at hc
          simp at hc

/-- Each cube coordinate stays in the ±80 slab. -/
theorem cubeCoord_bound (c : ℝ) (h0 : 0 ≤ c) (h1 : c < 1) :
    |(c - 1 / 2) * 160| ≤ 80 := by
  rw [abs_mul]
  have h : |c - 1 / 2| ≤ 1 / 2 := abs_le.2 ⟨by linarith, by linarith⟩
  have h160 : |(160 : ℝ)| = 160 := by norm_num
  rw [h160]
  nlinarith

/-- The JS modulus by a positive divisor lands in `[0, s)`. -/
theorem jsMod_mem (a s : ℝ) (hs : 0 < s) : 0 ≤ jsMod a s ∧ jsMod a s < s := by
  rw [jsMod]
  constructor
  · have h := Int.floor_le (a / s)
    have h2 : s * (⌊a / s⌋ : ℝ) ≤ s * (a / s) := by
      exact mul_le_mul_of_nonneg_left h hs.le
    rw [mul_div_cancel₀ a (ne_of_gt hs)] at h2
    linarith
  · have h := Int.lt_floor_add_one (a / s)
    have h2 : s * (a / s) < s * ((⌊a / s⌋ : ℝ) + 1) := by
      exact mul_lt_mul_of_pos_left h hs
    rw [mul_div_cancel₀ a (ne_of_gt hs)] at h2
    nlinarith

/-- The fold angle of any candidate angle lies in `[0, sector/2]`. -/
theorem starFold_mem (angle : ℝ) :
    0 ≤ starFold angle ∧ starFold angle ≤ starSector / 2 := by
  have hs : 0 < starSector := by
    rw [starSector]
    positivity
  obtain ⟨h0f, h1⟩ := jsMod_mem angle starSector hs
  refine ⟨abs_nonneg _, ?_⟩
  rw [starFold]
  exact abs_le.2 ⟨by linarith, by linarith⟩

/-- The code's interpolated star radius limit is positive on the fold
range. -/
theorem starMaxR_pos (fold : ℝ) (_h0 : 0 ≤ fold) (h1 : fold ≤ starSector / 2) :
    0 < starMaxR fold := by
  have hpi : Real.pi < 3.15 := Real.pi_lt_d2
  rw [starSector] at h1
  rw [starMaxR, starOuter, starInner]
  nlinarith [Real.pi_pos]

/-- Every sphere sample lies inside the ball of radius 100. -/
theorem spherePoint_norm_le (u1 u2 u3 : ℝ) (h0 : 0 ≤ u1) (h1 : u1 ≤ 1) :
    Real.sqrt ((spherePoint u1 u2 u3).x ^ 2 + (spherePoint u1 u2 u3).y ^ 2
      + (spherePoint u1 u2 u3).z ^ 2) ≤ 100 := by
  show Real.sqrt
      ((100 * u1 ^ ((1 : ℝ) / 3) * Real.sin (Real.arccos (2 * u3 - 1))
          * Real.cos (u2 * (Real.pi * 2))) ^ 2
        + (100 * u1 ^ ((1 : ℝ) / 3) * Real.sin (Real.arccos (2 * u3 - 1))
            * Real.sin (u2 * (Real.pi * 2))) ^ 2
        + (100 * u1 ^ ((1 : ℝ) / 3) * Real.cos (Real.arccos (2 * u3 - 1))) ^ 2)
      ≤ 100
  have hr0 : 0 ≤ 100 * u1 ^ ((1 : ℝ) / 3) := by
    have := Real.rpow_nonneg h0 ((1 : ℝ) / 3)
    linarith
  have hth := Real.sin_sq_add_cos_sq (u2 * (Real.pi * 2))
  have hph := Real.sin_sq_add_cos_sq (Real.arccos (2 * u3 - 1))
  have hsum :
      (100 * u1 ^ ((1 : ℝ) / 3) * Real.sin (Real.arccos (2 * u3 - 1))
          * Real.cos (u2 * (Real.pi * 2))) ^ 2
        + (100 * u1 ^ ((1 : ℝ) / 3) * Real.sin (Real.arccos (2 * u3 - 1))
            * Real.sin (u2 * (Real.pi * 2))) ^ 2
        + (100 * u1 ^ ((1 : ℝ) / 3) * Real.cos (Real.arccos (2 * u3 - 1))) ^ 2
      = (100 * u1 ^ ((1 : ℝ) / 3)) ^ 2 := by
    linear_combination
      ((100 * u1 ^ ((1 : ℝ) / 3)) ^ 2
          * Real.sin (Real.arccos (2 * u3 - 1)) ^ 2) * hth
        + (100 * u1 ^ ((1 : ℝ) / 3)) ^ 2 * hph
  rw [hsum, Real.sqrt_sq hr0]
  have hcbrt : u1 ^ ((1 : ℝ) / 3) ≤ 1 := Real.rpow_le_one h0 h1 (by norm_num)
  linarith

/-- Every star sample's planar radius is strictly below the code's
interpolated limit at its fold angle. -/
theorem starPoint_radius_lt (u1 u2 u3 : ℝ) (h0 : 0 ≤ u2) (h1 : u2 < 1) :
    Real.sqrt ((starPoint u1 u2 u3).x ^ 2 + (starPoint u1 u2 u3).y ^ 2)
      < starMaxR (starFold (u1 * (Real.pi * 2))) := by
  show Real.sqrt
      ((Real.sqrt u2 * starMaxR (starFold (u1 * (Real.pi * 2)))
          * Real.cos (u1 * (Real.pi * 2))) ^ 2
        + (Real.sqrt u2 * starMaxR (starFold (u1 * (Real.pi * 2)))
            * Real.sin (u1 * (Real.pi * 2))) ^ 2)
      < starMaxR (starFold (u1 * (Real.pi * 2)))
  obtain ⟨hf0, hf1⟩ := starFold_mem (u1 * (Real.pi * 2))
  have hM : 0 < starMaxR (starFold (u1 * (Real.pi * 2))) :=
    starMaxR_pos _ hf0 hf1
  have hr0 : 0 ≤ Real.sqrt u2 * starMaxR (starFold (u1 * (Real.pi * 2))) :=
    mul_nonneg (Real.sqrt_nonneg _) hM.le
  have htrig := Real.sin_sq_add_cos_sq (u1 * (Real.pi * 2))
  have hsum :
      (Real.sqrt u2 * starMaxR (starFold (u1 * (Real.pi * 2)))
          * Real.cos (u1 * (Real.pi * 2))) ^ 2
        + (Real.sqrt u2 * starMaxR (starFold (u1 * (Real.pi * 2)))
            * Real.sin (u1 * (Real.pi * 2))) ^ 2
      = (Real.sqrt u2 * starMaxR (starFold (u1 * (Real.pi * 2)))) ^ 2 := by
    linear_combination
      (Real.sqrt u2 * starMaxR (starFold (u1 * (Real.pi * 2)))) ^ 2 * htrig
  rw [hsum, Real.sqrt_sq hr0]
  have hs : Real.sqrt u2 < 1 := by
    rw [show (1 : ℝ) = Real.sqrt 1 from Real.sqrt_one.symm]
    exact Real.sqrt_lt_sqrt h0 h1
  calc Real.sqrt u2 * starMaxR (starFold (u1 * (Real.pi * 2)))
      < 1 * starMaxR (starFold (u1 * (Real.pi * 2))) :=
        mul_lt_mul_of_pos_right hs hM
    _ = starMaxR (starFold (u1 * (Real.pi * 2))) := one_mul _

/-- C6 counterexample (star part): for the candidate with angle draw 0
and radius draw 0.9, the fold sits at the sector boundary, where the
spec's limit — interpolating to the inner valley radius at the
boundary — equals 55; but the generated point's planar radius
(√0.9 · (130 − 12π) ≈ 87.6) exceeds 55: the code interpolates with
parameter `0.8 · fold`, which reaches only ≈ 0.50 at the boundary, so
its limit there is 130 − 12π ≈ 92.3, not the inner radius. -/
theorem C6_counterexample :
    starSpecLimit (starFold (0 * (Real.pi * 2))) = 55 ∧
    starSpecLimit (starFold (0 * (Real.pi * 2)))
      < Real.sqrt ((starPoint 0 (9 / 10) (1 / 2)).x ^ 2
          + (starPoint 0 (9 / 10) (1 / 2)).y ^ 2) := by
  have hang : (0 : ℝ) * (Real.pi * 2) = 0 := zero_mul _
  have hsec : (0 : ℝ) < starSector := by
    rw [starSector]
    positivity
  have hmod : jsMod 0 starSector = 0 := by
    rw [jsMod, zero_div, Int.floor_zero]
    norm_num
  have hfold : starFold 0 = starSector / 2 := by
    rw [starFold, hmod, zero_sub, abs_neg,
      abs_of_nonneg (by linarith : (0 : ℝ) ≤ starSector / 2)]
  have hspec : starSpecLimit (starSector / 2) = 55 := by
    rw [starSpecLimit, div_self (by linarith : starSector / 2 ≠ 0), starOuter, starInner]
    norm_num
  have hMval : starMaxR (starSector / 2) = 130 - 12 * Real.pi := by
    rw [starMaxR, starOuter, starInner, starSector]
    ring
  have hMpos : (0 : ℝ) < 130 - 12 * Real.pi := by nlinarith [Real.pi_lt_d2]
  have hs : (9 / 10 : ℝ) ≤ Real.sqrt (9 / 10) := by
    have h1 : Real.sqrt ((9 / 10 : ℝ) ^ 2) ≤ Real.sqrt (9 / 10) :=
      Real.sqrt_le_sqrt (by norm_num)
    rwa [Real.sqrt_sq (by norm_num : (0 : ℝ) ≤ 9 / 10)] at h1
  constructor
  · rw [hang, hfold, hspec]
  · show starSpecLimit (starFold (0 * (Real.pi * 2)))
      < Real.sqrt
          ((Real.sqrt (9 / 10) * starMaxR (starFold (0 * (Real.pi * 2)))
              * Real.cos (0 * (Real.pi * 2))) ^ 2
            + (Real.sqrt (9 / 10) * starMaxR (starFold (0 * (Real.pi * 2)))
                * Real.sin (0 * (Real.pi * 2))) ^ 2)
    rw [hang, hfold, hspec, hMval, Real.cos_zero, Real.sin_zero]
    have hsq : (Real.sqrt (9 / 10) * (130 - 12 * Real.pi) * 1) ^ 2
        + (Real.sqrt (9 / 10) * (130 - 12 * Real.pi) * 0) ^ 2
        = (Real.sqrt (9 / 10) * (130 - 12 * Real.pi)) ^ 2 := by ring
    rw [hsq, Real.sqrt_sq (mul_nonneg (Real.sqrt_nonneg _) hMpos.le)]
    nlinarith [hs, hMpos, Real.pi_lt_d2,
      mul_nonneg (by linarith : (0 : ℝ) ≤ Real.sqrt (9 / 10) - 9 / 10) hMpos.le]

/-- C6 amended: every sphere sample lies within radius 100 of the
origin; every cube sample has each coordinate within ±80; every star
sample's planar radius is strictly below the code's interpolated limit
`starMaxR` at its fold angle — a limit that at the sector boundary is
130 − 12π ≈ 92.3, not the spec's inner valley radius — and every
accepted heart candidate satisfies the heart implicit inequality in
the unscaled local frame. -/
theorem C6_amended_containment
    (u1 u2 u3 c1 c2 c3 t1 t2 t3 : ℝ) (σ : ℕ → ℚ × ℚ × ℚ) (m : ℕ)
    (hu0 : 0 ≤ u1) (hu1 : u1 < 1)
    (hc10 : 0 ≤ c1) (hc11 : c1 < 1) (hc20 : 0 ≤ c2) (hc21 : c2 < 1)
    (hc30 : 0 ≤ c3) (hc31 : c3 < 1)
    (ht0 : 0 ≤ t2) (ht1 : t2 < 1) :
    Real.sqrt ((spherePoint u1 u2 u3).x ^ 2 + (spherePoint u1 u2 u3).y ^ 2
        + (spherePoint u1 u2 u3).z ^ 2) ≤ 100 ∧
    (|(cubePoint c1 c2 c3).x| ≤ 80 ∧ |(cubePoint c1 c2 c3).y| ≤ 80 ∧
      |(cubePoint c1 c2 c3).z| ≤ 80) ∧
    Real.sqrt ((starPoint t1 t2 t3).x ^ 2 + (starPoint t1 t2 t3).y ^ 2)
      < starMaxR (starFold (t1 * (Real.pi * 2))) ∧
    ∀ c ∈ heartAccepted σ m,
      (c.1 ^ 2 + (9 / 4) * c.2.1 ^ 2 + c.2.2 ^ 2 - 1) ^ 3
        - c.1 ^ 2 * c.2.2 ^ 3 - (9 / 80) * c.2.1 ^ 2 * c.2.2 ^ 3 < 0 := by
  refine ⟨spherePoint_norm_le u1 u2 u3 hu0 hu1.le, ⟨?_, ?_, ?_⟩,
    starPoint_radius_lt t1 t2 t3 ht0 ht1, ?_⟩
  · exact cubeCoord_bound c1 hc10 hc11
  · exact cubeCoord_bound c2 hc20 hc21
  · exact cubeCoord_bound c3 hc30 hc31
  · intro c hc
    have h := heartAccepted_mem σ m c hc
    rw [heartAccept, decide_eq_true_eq] at h
    exact h

/-- Witness for C6 amended: all draws 1/2, the all-0.5 heart stream
after one iteration. -/
theorem C6_amended_containment_witness :
    Real.sqrt ((spherePoint (1 / 2) (1 / 2) (1 / 2)).x ^ 2
        + (spherePoint (1 / 2) (1 / 2) (1 / 2)).y ^ 2
        + (spherePoint (1 / 2) (1 / 2) (1 / 2)).z ^ 2) ≤ 100 ∧
    (|(cubePoint (1 / 2) (1 / 2) (1 / 2)).x| ≤ 80 ∧
      |(cubePoint (1 / 2) (1 / 2) (1 / 2)).y| ≤ 80 ∧
      |(cubePoint (1 / 2) (1 / 2) (1 / 2)).z| ≤ 80) ∧
    Real.sqrt ((starPoint (1 / 2) (1 / 2) (1 / 2)).x ^ 2
        + (starPoint (1 / 2) (1 / 2) (1 / 2)).y ^ 2)
      < starMaxR (starFold ((1 / 2) * (Real.pi * 2))) ∧
    ∀ c ∈ heartAccepted goodHeartStream 1,
      (c.1 ^ 2 + (9 / 4) * c.2.1 ^ 2 + c.2.2 ^ 2 - 1) ^ 3
        - c.1 ^ 2 * c.2.2 ^ 3 - (9 / 80) * c.2.1 ^ 2 * c.2.2 ^ 3 < 0 :=
  C6_amended_containment (1 / 2) (1 / 2) (1 / 2) (1 / 2) (1 / 2) (1 / 2)
    (1 / 2) (1 / 2) (1 / 2) goodHeartStream 1
    (by norm_num) (by norm_num) (by norm_num) (by norm_num) (by norm_num)
    (by norm_num) (by norm_num) (by norm_num) (by norm_num) (by norm_num)

end RealEmbedding
end Wuhhuu
